import Mathlib

/-!
Shallow embedding of `src/qa_bot.py` (a document-QA chat client over a remote
vector-store service): the data model for query responses, the citation
resolver `response_text_and_citations`, the ingestion pipeline
`upload_files_to_vector_store` with its registry update, and the chat turn
handler covering the streaming and non-streaming query paths.
-/

/-- One annotation on a content segment (qa_bot.py lines 86-92).  The source
handles both dict- and object-shaped annotations; either way it reads a `type`
and a `file_id`, each possibly missing (`None`), which we model as `Option`. -/
structure AnnotationItem where
  type : Option String
  file_id : Option String
deriving DecidableEq

/-- One structured content item of a message output item (qa_bot.py lines
75-77, 85-86): a `type`, a `text` (the source reads it with
`getattr(c, "text", "")`, so a missing text is the empty string), and a list
of annotations (`getattr(c, "annotations", None) or []`, so missing means
empty). -/
structure ContentItem where
  type : Option String
  text : String
  annotations : List AnnotationItem
deriving DecidableEq

/-- One output item of a response (qa_bot.py lines 73-75). -/
structure OutputItem where
  type : Option String
  content : List ContentItem
deriving DecidableEq

/-- A terminal query response (spec §3 QueryResponse): a response id, an
optional convenience `output_text` (`getattr(resp, "output_text", None)`),
and structured `output` items. -/
structure QueryResponse where
  id : String
  output_text : Option String
  output : List OutputItem
deriving DecidableEq

/-- The identifier registry `st.session_state["file_name_by_id"]`:
a fileId → filename mapping, modelled as an association list where the
most recent insertion shadows earlier ones (dict-overwrite semantics). -/
abbrev Registry := List (String × String)

/-- Dict lookup returning the stored value if the key is present. -/
def regFind (reg : Registry) (fid : String) : Option String :=
  (reg.find? (fun p => p.1 == fid)).map (fun p => p.2)

/-- Python `file_names_by_id.get(fid, fid)` (qa_bot.py line 92): resolve a
fileId to its registered filename, falling back to the raw id if unknown. -/
def regGet (reg : Registry) (fid : String) : String :=
  (regFind reg fid).getD fid

/-- Dict assignment `file_name_by_id[fid] = name`: prepend, so that `regFind`
(first match wins) sees the new binding, matching dict overwrite. -/
def regInsert (reg : Registry) (fid name : String) : Registry :=
  (fid, name) :: reg

/-- Python `sep.join(parts)`. -/
def pyJoin (sep : String) : List String → String
  | [] => ""
  | [s] => s
  | s :: rest => s ++ sep ++ pyJoin sep rest

/-- Python `s.strip()`: remove leading and trailing whitespace. -/
def pyStrip (s : String) : String :=
  String.mk (((s.data.dropWhile Char.isWhitespace).reverse.dropWhile Char.isWhitespace).reverse)

/-- Python `s.rstrip()`: remove trailing whitespace. -/
def pyRStrip (s : String) : String :=
  String.mk ((s.data.reverse.dropWhile Char.isWhitespace).reverse)

/-- The text chunks collected by the extraction loop (qa_bot.py lines 72-77):
for each output item of type "message", for each content item of type
"output_text", collect its text, in order. -/
def textChunks (resp : QueryResponse) : List String :=
  (resp.output.filter (fun item => item.type == some "message")).flatMap
    (fun item =>
      (item.content.filter (fun c => c.type == some "output_text")).map
        (fun c => c.text))

/-- The fallback text `"\n".join(chunks).strip() or "(no text)"`
(qa_bot.py line 78). -/
def fallbackJoin (resp : QueryResponse) : String :=
  let joined := pyStrip (pyJoin "\n" (textChunks resp))
  if joined = "" then "(no text)" else joined

/-- Answer-text extraction (qa_bot.py lines 70-78): use `output_text` if it is
present and truthy (Python `if not text` treats both `None` and `""` as
absent), otherwise fall back to the joined structured text chunks. -/
def extract_text (resp : QueryResponse) : String :=
  match resp.output_text with
  | some s => if s = "" then fallbackJoin resp else s
  | none => fallbackJoin resp

/-- The fileId an annotation contributes, if any (qa_bot.py lines 88-91):
the annotation type must be "file_citation" or "vector_store_citation" and the
file_id must be truthy (present and non-empty, Python `if fid:`). -/
def annFid (ann : AnnotationItem) : Option String :=
  if ann.type == some "file_citation" || ann.type == some "vector_store_citation" then
    match ann.file_id with
    | some fid => if fid = "" then none else some fid
    | none => none
  else none

/-- The fileIds collected by the citation loop (qa_bot.py lines 83-92), in
order: for each output item of type "message", for each content item, for
each annotation, the contributed fileId if any. -/
def collectFids (resp : QueryResponse) : List String :=
  (resp.output.filter (fun item => item.type == some "message")).flatMap
    (fun item => item.content.flatMap (fun c => c.annotations.filterMap annFid))

/-- The cited names in collection order (qa_bot.py line 92): each collected
fileId resolved through the registry, raw id as fallback. -/
def cited_names (reg : Registry) (resp : QueryResponse) : List String :=
  (collectFids resp).map (regGet reg)

/-- The dedupe loop (qa_bot.py lines 94-97): walk the names keeping each
first occurrence, tracked by a seen-set, accumulating in reverse. -/
def dedupGo (seen dedup : List String) : List String → List String
  | [] => dedup.reverse
  | n :: rest =>
    if n ∈ seen then dedupGo seen dedup rest
    else dedupGo (n :: seen) (n :: dedup) rest

/-- Order-preserving deduplication of the cited names (qa_bot.py lines 93-97). -/
def dedupeInOrder (names : List String) : List String :=
  dedupGo [] [] names

/-- The citation resolver (qa_bot.py lines 68-100): extract the answer text,
collect / resolve / dedupe cited names, and if any remain append
`text.rstrip() + "\n\n— **Sources:** " + "; ".join(dedup)` (line 99). -/
def response_text_and_citations (reg : Registry) (resp : QueryResponse) : String :=
  let text := extract_text resp
  let dedup := dedupeInOrder (cited_names reg resp)
  if dedup = [] then text
  else pyRStrip text ++ "\n\n— **Sources:** " ++ pyJoin "; " dedup

/-- One event of a streaming query (qa_bot.py lines 229-234): the loop reacts
to "response.output_text.delta" events (appending the delta to the display
buffer) and to the "response.completed" event (capturing the terminal
response); every other event type is ignored. -/
inductive StreamEvent where
  | delta (text : String)
  | completed (resp : QueryResponse)
  | other (type : String)
deriving DecidableEq

/-- Whether an event is the terminal "response.completed" event. -/
def isCompletedEvent : StreamEvent → Bool
  | StreamEvent.completed _ => true
  | _ => false

/-- The streaming consumption loop (qa_bot.py lines 227-234), carrying the
running display buffer `streamed` and the captured terminal response (absent
until a completed event arrives; a later completed event overwrites). -/
def streamLoop (streamed : String) (resp : Option QueryResponse) :
    List StreamEvent → String × Option QueryResponse
  | [] => (streamed, resp)
  | e :: rest =>
    match e with
    | StreamEvent.delta d => streamLoop (streamed ++ d) resp rest
    | StreamEvent.completed r => streamLoop streamed (some r) rest
    | StreamEvent.other _ => streamLoop streamed resp rest

/-- Consume a whole event stream starting from the empty buffer. -/
def consumeStream (events : List StreamEvent) : String × Option QueryResponse :=
  streamLoop "" none events

/-- The reconciliation step after the stream loop (qa_bot.py lines 235-237):
use the captured terminal response if one arrived; otherwise issue the
non-streaming fallback `client.responses.create(**kwargs)`, whose result is
the oracle `fb`.  The second component counts the query calls made on this
path (the stream subscription, plus the fallback call if taken). -/
def reconcileStream (events : List StreamEvent) (fb : QueryResponse) :
    QueryResponse × Nat :=
  match (consumeStream events).2 with
  | some resp => (resp, 1)
  | none => (fb, 2)

/-- One transcript turn (`st.session_state["messages"]` entries,
spec §3 Turn). -/
structure Turn where
  role : String
  content : String
deriving DecidableEq

/-- A UI element rendered during one script run (chat bubbles, info boxes,
the exception box of qa_bot.py line 252).  Transient: unlike transcript
turns, rendered elements are not retained in session state. -/
inductive Rendered where
  | info (msg : String)
  | chatMarkdown (role : String) (content : String)
  | exceptionBox (role : String) (msg : String)
deriving DecidableEq

/-- The outcome of running the chat section once: the transcript after the
run, the elements rendered, and how many Gateway query calls were made. -/
structure ChatResult where
  messages : List Turn
  rendered : List Rendered
  gatewayCalls : Nat
deriving DecidableEq

/-- What the try-block of qa_bot.py lines 209-248 encounters, as an oracle
for the remote service: a successful stream subscription (with its events and
the response a fallback `create` would return), a successful non-streaming
call, or an exception escaping the block (with however many query calls had
been made before it was raised). -/
inductive QueryAttempt where
  | streamOk (events : List StreamEvent) (fb : QueryResponse)
  | nonStreamOk (resp : QueryResponse)
  | raised (msg : String) (callsBefore : Nat)
deriving DecidableEq

/-- One chat turn (qa_bot.py lines 204-252): append the user turn, then
either reconcile a query response into exactly one assistant turn, or — on an
exception — render the error in an assistant chat bubble WITHOUT appending
anything further to the transcript (lines 250-252). -/
def chatTurn (reg : Registry) (msgs : List Turn) (q : String) :
    QueryAttempt → ChatResult
  | QueryAttempt.nonStreamOk resp =>
    let text := response_text_and_citations reg resp
    ChatResult.mk (msgs ++ [Turn.mk "user" q, Turn.mk "assistant" text])
      [Rendered.chatMarkdown "user" q, Rendered.chatMarkdown "assistant" text] 1
  | QueryAttempt.streamOk events fb =>
    let rc := reconcileStream events fb
    let text := response_text_and_citations reg rc.1
    ChatResult.mk (msgs ++ [Turn.mk "user" q, Turn.mk "assistant" text])
      [Rendered.chatMarkdown "user" q, Rendered.chatMarkdown "assistant" text] rc.2
  | QueryAttempt.raised e n =>
    ChatResult.mk (msgs ++ [Turn.mk "user" q])
      [Rendered.chatMarkdown "user" q, Rendered.exceptionBox "assistant" e] n

/-- Python truthiness of the active vector-store id
(`if not active_vs`, qa_bot.py line 195). -/
def isActive : Option String → Bool
  | none => false
  | some s => s ≠ ""

/-- The chat section (qa_bot.py lines 193-252).  With no active vector store
it only renders an info box — no chat input, no Gateway call, transcript
untouched (lines 195-196).  Otherwise it renders the prior transcript and, if
the user submitted a question, runs one chat turn. -/
def chatSection (activeVs : Option String) (reg : Registry) (msgs : List Turn)
    (inputQ : Option String) (att : QueryAttempt) : ChatResult :=
  if isActive activeVs then
    match inputQ with
    | none => ChatResult.mk msgs (msgs.map (fun m => Rendered.chatMarkdown m.role m.content)) 0
    | some q =>
      let r := chatTurn reg msgs q att
      ChatResult.mk r.messages
        ((msgs.map (fun m => Rendered.chatMarkdown m.role m.content)) ++ r.rendered)
        r.gatewayCalls
  else
    ChatResult.mk msgs [Rendered.info "Select or create a Vector Store above to enable chat."] 0

/-- One file handed to the ingestion pipeline (a Streamlit upload handle):
its client-side name and the length of its byte content
(`len(f.getvalue())`). -/
structure UploadFile where
  name : String
  size : Nat
deriving DecidableEq

/-- The remote outcome for one file of a batch, as an oracle: either the
upload and attach-and-poll both succeed, yielding the remote fileId, or some
step raises (UploadError / IndexingFailed / IndexingTimeout). -/
inductive UploadOutcome where
  | success (fileId : String)
  | failure (msg : String)
deriving DecidableEq

/-- Whether an outcome is a success. -/
def isSuccess : UploadOutcome → Bool
  | UploadOutcome.success _ => true
  | UploadOutcome.failure _ => false

/-- One entry of the pipeline's result list
(`{"file_id": up.id, "filename": f.name, "bytes": len(file_bytes)}`,
qa_bot.py line 63). -/
structure UploadResult where
  file_id : String
  filename : String
  bytes : Nat
deriving DecidableEq

/-- The ingestion pipeline loop (qa_bot.py lines 55-66): process the batch in
submission order; a success appends its result record; a failure is reported
(st.error) and the loop continues with the remaining files. -/
def upload_files_to_vector_store :
    List (UploadFile × UploadOutcome) → List UploadResult
  | [] => []
  | (f, out) :: rest =>
    match out with
    | UploadOutcome.success fid =>
      UploadResult.mk fid f.name f.size :: upload_files_to_vector_store rest
    | UploadOutcome.failure _ => upload_files_to_vector_store rest

/-- The caller-side registry update (qa_bot.py lines 161-163): for each
returned result, `file_name_by_id[file_id] = filename`. -/
def registerUploads (reg : Registry) (info : List UploadResult) : Registry :=
  info.foldl (fun r i => regInsert r i.file_id i.filename) reg

/-- Spec-side description of the pipeline's output: the successful files of
the batch, in submission order, each paired with its remote fileId. -/
def successResults (batch : List (UploadFile × UploadOutcome)) : List UploadResult :=
  (batch.filter (fun p => isSuccess p.2)).map
    (fun p =>
      match p.2 with
      | UploadOutcome.success fid => UploadResult.mk fid p.1.name p.1.size
      | UploadOutcome.failure _ => UploadResult.mk "" p.1.name p.1.size)

/-- No event of the stream is the terminal completed event. -/
def noCompletedEvent (events : List StreamEvent) : Bool :=
  events.all (fun e => !isCompletedEvent e)

/-- The batch contains at least one succeeding file. -/
def hasSuccess (batch : List (UploadFile × UploadOutcome)) : Bool :=
  batch.any (fun p => isSuccess p.2)

/-- The batch contains at least one failing file. -/
def hasFailure (batch : List (UploadFile × UploadOutcome)) : Bool :=
  batch.any (fun p => !isSuccess p.2)

/-- The fileIds of a result list. -/
def resultFids (rs : List UploadResult) : List String :=
  rs.map (fun r => r.file_id)

/-- Extraction as claim C2 literally reads: `outputText` used verbatim
whenever the field is present, else the plain concatenation of the text
segments, else (only when there are no segments at all) the placeholder. -/
def extract_text_claimed (resp : QueryResponse) : String :=
  match resp.output_text with
  | some s => s
  | none =>
    if textChunks resp = [] then "(no text)"
    else String.join (textChunks resp)

/-- Extraction as amended: `outputText` is used only when present AND
non-empty; otherwise the text segments are joined with newlines and the
surrounding whitespace stripped; whenever that stripped join is empty
(in particular when no segments exist) the placeholder "(no text)" is
returned. -/
def extract_text_amended (resp : QueryResponse) : String :=
  let s := resp.output_text.getD ""
  if s ≠ "" then s
  else if pyStrip (pyJoin "\n" (textChunks resp)) ≠ "" then
    pyStrip (pyJoin "\n" (textChunks resp))
  else "(no text)"

lemma streamLoop_snd_none (events : List StreamEvent) :
    ∀ s : String, (∀ e ∈ events, isCompletedEvent e = false) →
      (streamLoop s none events).2 = none := by
  induction events with
  | nil => intro s _; rfl
  | cons e rest ih =>
    intro s h
    cases e with
    | delta d => exact ih (s ++ d) (fun x hx => h x (List.mem_cons_of_mem _ hx))
    | completed r =>
      have := h (StreamEvent.completed r) (List.mem_cons_self _ _)
      simp [isCompletedEvent] at this
    | other t => exact ih s (fun x hx => h x (List.mem_cons_of_mem _ hx))

lemma streamLoop_snd_completed_last (deltas : List String) (resp : QueryResponse) :
    ∀ (s : String) (r : Option QueryResponse),
      (streamLoop s r (deltas.map StreamEvent.delta ++ [StreamEvent.completed resp])).2
        = some resp := by
  induction deltas with
  | nil => intro s r; rfl
  | cons d rest ih => intro s r; exact ih (s ++ d) r

lemma reconcileStream_no_completed (events : List StreamEvent) (fb : QueryResponse)
    (h : noCompletedEvent events = true) :
    reconcileStream events fb = (fb, 2) := by
  have h2 : ∀ e ∈ events, isCompletedEvent e = false := by
    intro e he
    have := List.all_eq_true.mp h e he
    simpa using this
  unfold reconcileStream consumeStream
  rw [streamLoop_snd_none events "" h2]

lemma reconcileStream_completed_last (deltas : List String) (resp fb : QueryResponse) :
    reconcileStream (deltas.map StreamEvent.delta ++ [StreamEvent.completed resp]) fb
      = (resp, 1) := by
  unfold reconcileStream consumeStream
  rw [streamLoop_snd_completed_last deltas resp "" none]

lemma upload_eq_successResults (batch : List (UploadFile × UploadOutcome)) :
    upload_files_to_vector_store batch = successResults batch := by
  induction batch with
  | nil => rfl
  | cons p rest ih =>
    obtain ⟨f, out⟩ := p
    cases out with
    | success fid =>
      simp [upload_files_to_vector_store, successResults, isSuccess, List.filter] at ih ⊢
      exact ih
    | failure m =>
      simp [upload_files_to_vector_store, successResults, isSuccess, List.filter] at ih ⊢
      exact ih

lemma registerUploads_new_key (res : List UploadResult) :
    ∀ (reg : Registry) (fid : String),
      regFind (registerUploads reg res) fid ≠ regFind reg fid →
      fid ∈ resultFids res := by
  induction res with
  | nil => intro reg fid h; exact absurd rfl h
  | cons i rest ih =>
    intro reg fid h
    by_cases hf : fid = i.file_id
    · simp [resultFids, hf]
    · have hstep : regFind (regInsert reg i.file_id i.filename) fid = regFind reg fid := by
        unfold regFind regInsert
        rw [List.find?_cons_of_neg]
        simp [Ne.symm hf]
      have hfold :
          registerUploads reg (i :: rest)
            = registerUploads (regInsert reg i.file_id i.filename) rest := rfl
      rcases eq_or_ne
          (regFind (registerUploads (regInsert reg i.file_id i.filename) rest) fid)
          (regFind (regInsert reg i.file_id i.filename) fid) with heq | hne
      · exfalso
        apply h
        rw [hfold, heq, hstep]
      · have hmem := ih (regInsert reg i.file_id i.filename) fid hne
        simp [resultFids] at hmem ⊢
        exact Or.inr hmem

/-- C1: for every terminal QueryResponse whose citation annotations (of kind
file citation or vector-store citation, carrying a fileId) cite the fileIds
[a, a, b, c, b], where the registry maps a to "X.pdf" and b to "Y.docx" and c
is unknown (and, as the scenario presumes, c collides with neither resolved
name), the citation resolver appends the sources "X.pdf; Y.docx; c": names
collected in first-occurrence order, duplicates removed, an unknown fileId
passed through as the raw identifier. -/
theorem C1_sources_dedup_order (reg : Registry) (resp : QueryResponse) (a b c : String)
    (hfids : collectFids resp = [a, a, b, c, b])
    (ha : regFind reg a = some "X.pdf")
    (hb : regFind reg b = some "Y.docx")
    (hc : regFind reg c = none)
    (hcx : c ≠ "X.pdf") (hcy : c ≠ "Y.docx") :
    response_text_and_citations reg resp
      = pyRStrip (extract_text resp) ++ "\n\n— **Sources:** "
        ++ pyJoin "; " ["X.pdf", "Y.docx", c] := by
  unfold response_text_and_citations cited_names
  rw [hfids]
  simp [regGet, ha, hb, hc, dedupeInOrder, dedupGo, hcx, hcy]

def respC1 : QueryResponse :=
  QueryResponse.mk "r1" (some "answer")
    [OutputItem.mk (some "message")
      [ContentItem.mk (some "output_text") "answer"
        [AnnotationItem.mk (some "file_citation") (some "fa"),
         AnnotationItem.mk (some "file_citation") (some "fa"),
         AnnotationItem.mk (some "vector_store_citation") (some "fb"),
         AnnotationItem.mk (some "file_citation") (some "fc"),
         AnnotationItem.mk (some "file_citation") (some "fb")]]]

def regC1 : Registry := [("fa", "X.pdf"), ("fb", "Y.docx")]

/-- Witness for C1 at a concrete response, registry and fileIds. -/
theorem C1_witness :
    collectFids respC1 = ["fa", "fa", "fb", "fc", "fb"] ∧
    regFind regC1 "fa" = some "X.pdf" ∧
    regFind regC1 "fb" = some "Y.docx" ∧
    regFind regC1 "fc" = none ∧
    response_text_and_citations regC1 respC1
      = pyRStrip (extract_text respC1) ++ "\n\n— **Sources:** "
        ++ pyJoin "; " ["X.pdf", "Y.docx", "fc"] :=
  ⟨by decide, by decide, by decide, by decide,
   C1_sources_dedup_order regC1 respC1 "fa" "fb" "fc" (by decide) (by decide) (by decide)
     (by decide) (by decide) (by decide)⟩

def respC2a : QueryResponse :=
  QueryResponse.mk "r2a" (some "")
    [OutputItem.mk (some "message") [ContentItem.mk (some "output_text") "hello" []]]

def respC2b : QueryResponse :=
  QueryResponse.mk "r2b" none
    [OutputItem.mk (some "message")
      [ContentItem.mk (some "output_text") "a" [],
       ContentItem.mk (some "output_text") "b" []]]

def respC2c : QueryResponse :=
  QueryResponse.mk "r2c" none
    [OutputItem.mk (some "message") [ContentItem.mk (some "output_text") "" []]]

/-- C2 counterexample: the extraction does NOT match the claim as stated.
(a) an output_text that is present but empty is not used verbatim (the code
falls through to the segments and yields "hello", not ""); (b) the fallback
joins segments with newlines, not plain concatenation ("a\n b" vs "ab");
(c) the placeholder also appears when segments exist but their stripped join
is empty, where the claim prescribes the concatenation "". -/
theorem C2_counterexample :
    extract_text respC2a ≠ extract_text_claimed respC2a ∧
    extract_text respC2b ≠ extract_text_claimed respC2b ∧
    extract_text respC2c ≠ extract_text_claimed respC2c := by decide

/-- C2 (amended): the extracted answer text is the outputText field used
verbatim when that field is present AND non-empty; otherwise it is the
newline-join of the text segments of the structured message content with
surrounding whitespace stripped; and whenever that stripped join is empty
(in particular when no text segments exist) it is the placeholder
"(no text)". -/
theorem C2_amended_extraction (resp : QueryResponse) :
    extract_text resp = extract_text_amended resp := by
  unfold extract_text extract_text_amended fallbackJoin
  cases hot : resp.output_text with
  | none => simp
  | some s => by_cases hs : s = "" <;> simp [hs]

/-- C3: for every streaming query whose event stream ends without a terminal
completed event, the handler issues the fresh non-streaming fallback call
(two Gateway query calls in total), the running delta buffer is discarded,
and the transcript gains the user turn and exactly one assistant turn equal
to the fallback response's reconciled text — never a partial answer. -/
theorem C3_stream_abort_fallback (reg : Registry) (msgs : List Turn) (q : String)
    (events : List StreamEvent) (fb : QueryResponse)
    (h : noCompletedEvent events = true) :
    chatTurn reg msgs q (QueryAttempt.streamOk events fb)
      = ChatResult.mk
          (msgs ++ [Turn.mk "user" q,
                    Turn.mk "assistant" (response_text_and_citations reg fb)])
          [Rendered.chatMarkdown "user" q,
           Rendered.chatMarkdown "assistant" (response_text_and_citations reg fb)]
          2 := by
  have hrc := reconcileStream_no_completed events fb h
  simp [chatTurn, hrc]

def eventsC3 : List StreamEvent :=
  [StreamEvent.delta "Refunds with", StreamEvent.delta "in 30",
   StreamEvent.other "response.created"]

def fbC3 : QueryResponse := QueryResponse.mk "r3" (some "Refunds within 30 days.") []

/-- Witness for C3 at a concrete aborted stream and fallback response. -/
theorem C3_witness :
    noCompletedEvent eventsC3 = true ∧
    chatTurn [] [] "q" (QueryAttempt.streamOk eventsC3 fbC3)
      = ChatResult.mk
          [Turn.mk "user" "q",
           Turn.mk "assistant" (response_text_and_citations [] fbC3)]
          [Rendered.chatMarkdown "user" "q",
           Rendered.chatMarkdown "assistant" (response_text_and_citations [] fbC3)]
          2 :=
  ⟨by decide, by
    have h := C3_stream_abort_fallback [] [] "q" eventsC3 fbC3 (by decide)
    simpa using h⟩

/-- C4: for every ingestion batch containing both succeeding and failing
files, a failure on one file does not abort the rest: the pipeline returns
exactly the successful files in submission order, and the identifier registry
gains fileId→filename entries only for the successes (any fileId whose
lookup changed is the fileId of a returned success). -/
theorem C4_partial_failure_batch (batch : List (UploadFile × UploadOutcome))
    (reg : Registry) (_hs : hasSuccess batch = true) (_hf : hasFailure batch = true) :
    upload_files_to_vector_store batch = successResults batch ∧
    ∀ fid : String,
      regFind (registerUploads reg (upload_files_to_vector_store batch)) fid
          ≠ regFind reg fid →
        fid ∈ resultFids (successResults batch) := by
  refine ⟨upload_eq_successResults batch, ?_⟩
  intro fid hchanged
  rw [upload_eq_successResults batch] at hchanged
  exact registerUploads_new_key (successResults batch) reg fid hchanged

def batchC4 : List (UploadFile × UploadOutcome) :=
  [(UploadFile.mk "good.pdf" 10, UploadOutcome.success "fid-ok"),
   (UploadFile.mk "bad.pdf" 5, UploadOutcome.failure "UploadError"),
   (UploadFile.mk "also.txt" 3, UploadOutcome.success "fid-2")]

/-- Witness for C4 at a concrete mixed batch. -/
theorem C4_witness :
    hasSuccess batchC4 = true ∧ hasFailure batchC4 = true ∧
    upload_files_to_vector_store batchC4 = successResults batchC4 ∧
    (regFind (registerUploads [] (upload_files_to_vector_store batchC4)) "fid-ok"
        ≠ regFind [] "fid-ok" →
      "fid-ok" ∈ resultFids (successResults batchC4)) :=
  ⟨by decide, by decide,
   (C4_partial_failure_batch batchC4 [] (by decide) (by decide)).1,
   (C4_partial_failure_batch batchC4 [] (by decide) (by decide)).2 "fid-ok"⟩

def regC5 : Registry := [("file-123", "notes.pdf")]

def respC5 : QueryResponse :=
  QueryResponse.mk "resp-1" (some "Refunds within 30 days.")
    [OutputItem.mk (some "message")
      [ContentItem.mk (some "output_text") "Refunds within 30 days."
        [AnnotationItem.mk (some "file_citation") (some "file-123")]]]

/-- C5 counterexample: in the end-to-end scenario the assistant turn is NOT
the claimed exact string "Refunds within 30 days.\n\n— Sources: notes.pdf" —
the separator the code appends carries markdown bold markers. -/
theorem C5_counterexample :
    (chatTurn regC5 [] "What is the refund policy?"
        (QueryAttempt.nonStreamOk respC5)).messages
      ≠ [Turn.mk "user" "What is the refund policy?",
         Turn.mk "assistant" "Refunds within 30 days.\n\n— Sources: notes.pdf"] := by
  decide

/-- C5 (amended): in the end-to-end scenario where the remote returns
outputText "Refunds within 30 days." with one annotation citing the fileId
registered for notes.pdf, the transcript's assistant turn equals the exact
string "Refunds within 30 days.\n\n— **Sources:** notes.pdf" (the answer
text, a blank line, the separator "— **Sources:** " with markdown bold
markers, and the resolved name). -/
theorem C5_amended_scenario :
    (chatTurn regC5 [] "What is the refund policy?"
        (QueryAttempt.nonStreamOk respC5)).messages
      = [Turn.mk "user" "What is the refund policy?",
         Turn.mk "assistant" "Refunds within 30 days.\n\n— **Sources:** notes.pdf"] := by
  decide

/-- C6: for every terminal QueryResponse whose citation loop collects no
fileIds (no citation annotations, or only annotations without a usable
fileId), the citation resolver returns the answer text unmodified — no
trailing separator, no empty sources line. -/
theorem C6_no_citations_unmodified (reg : Registry) (resp : QueryResponse)
    (h : collectFids resp = []) :
    response_text_and_citations reg resp = extract_text resp := by
  unfold response_text_and_citations cited_names
  rw [h]
  simp [dedupeInOrder, dedupGo]

def respC6 : QueryResponse :=
  QueryResponse.mk "r6" (some "plain answer")
    [OutputItem.mk (some "message")
      [ContentItem.mk (some "output_text") "plain answer"
        [AnnotationItem.mk (some "file_citation") none,
         AnnotationItem.mk (some "url_citation") (some "f9")]]]

/-- Witness for C6 at a concrete response whose annotations carry no usable
file citation. -/
theorem C6_witness :
    collectFids respC6 = [] ∧
    response_text_and_citations [] respC6 = extract_text respC6 :=
  ⟨by decide, C6_no_citations_unmodified [] respC6 (by decide)⟩

/-- C7: for every query producing the same terminal response content, the
transcript entry is textually identical whether obtained through the
streaming path (delta events followed by a completed event) or through a
direct non-streaming call. -/
theorem C7_streaming_nonstreaming_equivalence (reg : Registry) (msgs : List Turn)
    (q : String) (deltas : List String) (resp fb : QueryResponse) :
    (chatTurn reg msgs q
        (QueryAttempt.streamOk
          (deltas.map StreamEvent.delta ++ [StreamEvent.completed resp]) fb)).messages
      = (chatTurn reg msgs q (QueryAttempt.nonStreamOk resp)).messages := by
  have hrc := reconcileStream_completed_last deltas resp fb
  simp [chatTurn, hrc]

/-- C8 counterexample: on a query-path exception the transcript does NOT gain
an assistant-role entry — after the error the transcript holds only the user
turn (the exception is rendered transiently, not appended). -/
theorem C8_counterexample :
    (chatTurn [] [] "q" (QueryAttempt.raised "boom" 1)).messages
      = [Turn.mk "user" "q"] := by decide

/-- C8 (amended): for every query-path error other than a stream abort, the
session does not crash: the failure is rendered as an assistant-role
exception element for that run, but no assistant entry is appended to the
transcript — the transcript gains only the user turn and the session remains
usable for the next question. -/
theorem C8_amended_error_surfaced (reg : Registry) (msgs : List Turn)
    (q e : String) (n : Nat) :
    (chatTurn reg msgs q (QueryAttempt.raised e n)).messages
        = msgs ++ [Turn.mk "user" q] ∧
    Rendered.exceptionBox "assistant" e
        ∈ (chatTurn reg msgs q (QueryAttempt.raised e n)).rendered := by
  refine ⟨rfl, ?_⟩
  simp [chatTurn]

/-- C9 counterexample: with no active index selected, NO NoActiveIndex
failure turn is appended — the chat section leaves the transcript exactly as
it was and only renders an informational prompt, making zero Gateway calls. -/
theorem C9_counterexample :
    chatSection none [] [Turn.mk "user" "earlier"] (some "q")
        (QueryAttempt.raised "x" 0)
      = ChatResult.mk [Turn.mk "user" "earlier"]
          [Rendered.info "Select or create a Vector Store above to enable chat."]
          0 := by decide

/-- C9 (amended): for every query submitted while no index is selected or
created, no Gateway call is made and the transcript is entirely unaffected;
instead of appending a failure turn, the chat section renders an
informational message prompting the user to select or create an index. -/
theorem C9_amended_no_active_index (activeVs : Option String) (reg : Registry)
    (msgs : List Turn) (inputQ : Option String) (att : QueryAttempt)
    (h : isActive activeVs = false) :
    chatSection activeVs reg msgs inputQ att
      = ChatResult.mk msgs
          [Rendered.info "Select or create a Vector Store above to enable chat."]
          0 := by
  simp [chatSection, h]

/-- Witness for C9 with no vector store selected. -/
theorem C9_witness :
    isActive none = false ∧
    chatSection none [] [] none (QueryAttempt.raised "x" 0)
      = ChatResult.mk []
          [Rendered.info "Select or create a Vector Store above to enable chat."]
          0 :=
  ⟨rfl, C9_amended_no_active_index none [] [] none (QueryAttempt.raised "x" 0) rfl⟩

/-- C10: for every terminal QueryResponse whose outputText is present but
equal to the empty string, extraction treats the field as exactly as if it
were absent: it falls through to the newline-join of the structured text
segments with surrounding whitespace stripped, and if that join is empty it
returns the placeholder "(no text)" — an empty-string outputText is never
used as the answer. -/
theorem C10_empty_output_text_falls_through (resp : QueryResponse)
    (h : resp.output_text = some "") :
    extract_text resp = extract_text (QueryResponse.mk resp.id none resp.output) ∧
    extract_text resp
      = (if pyStrip (pyJoin "\n" (textChunks resp)) = "" then "(no text)"
         else pyStrip (pyJoin "\n" (textChunks resp))) := by
  unfold extract_text fallbackJoin
  rw [h]
  constructor
  · rfl
  · simp

def respC10 : QueryResponse :=
  QueryResponse.mk "r10" (some "")
    [OutputItem.mk (some "message") [ContentItem.mk (some "output_text") "  hi  " []]]

/-- Witness for C10 at a concrete response with a present-but-empty
outputText. -/
theorem C10_witness :
    respC10.output_text = some "" ∧
    (extract_text respC10
        = extract_text (QueryResponse.mk respC10.id none respC10.output) ∧
     extract_text respC10
        = (if pyStrip (pyJoin "\n" (textChunks respC10)) = "" then "(no text)"
           else pyStrip (pyJoin "\n" (textChunks respC10)))) :=
  ⟨rfl, C10_empty_output_text_falls_through respC10 rfl⟩

